import Mathlib

/-!
Verification of the command-execution data source
(`src/internal/provider/data_source.go`, `testDataSource.Read`).

The Go function is shallowly embedded as a pure function `Read` over an
`OS` oracle providing executable-path resolution (`exec.LookPath`) and
process execution (`cmd.Run` of `exec.CommandContext`).  Besides the
framework response (state + diagnostics) the embedding returns the list
of spawn requests issued, so that claims about which processes are (not)
spawned can be stated.
-/

namespace TFTest

/-- Go `unicode.IsSpace` restricted to Latin-1, which is what
`strings.Fields` uses to delimit fields for ASCII/Latin-1 input. -/
def goIsSpace (c : Char) : Bool :=
  c = ' ' || c = '\t' || c = '\n' || c = '\x0B' || c = '\x0C' || c = '\r' ||
  c = '\x85' || c = '\xA0'

/-- Helper for `stringsFields`: scans the character list, accumulating
the current field in reverse in `cur`. -/
def fieldsAux (cur : List Char) : List Char → List String
  | [] => if cur = [] then [] else [String.mk cur.reverse]
  | c :: cs =>
    if goIsSpace c then
      if cur = [] then fieldsAux [] cs
      else String.mk cur.reverse :: fieldsAux [] cs
    else fieldsAux (c :: cur) cs

/-- Go `strings.Fields s`: the list of maximal runs of non-whitespace
characters of `s` (split around runs of whitespace, empties dropped). -/
def stringsFields (s : String) : List String :=
  fieldsAux [] s.data

/-- `types.String.ValueString()` of the terraform plugin framework:
the known value, or `""` for a null value.  A null attribute is
modelled as `none`. -/
def valueString (s : Option String) : String := s.getD ""

/-- The `testDataSourceModel` struct: the five schema attributes
(`command`, `working_dir`, `output`, `error`, `id`), each a nullable
framework string. -/
structure testDataSourceModel where
  command : Option String
  working_dir : Option String
  output : Option String
  error : Option String
  id : Option String
deriving DecidableEq, Repr

/-- The error value returned by `cmd.Run()` when it is non-nil:
a non-zero exit status (`*exec.ExitError`), a spawn-level failure
(e.g. an invalid `Dir`), or the kill caused by cancellation of the
context given to `exec.CommandContext`. -/
inductive GoError where
  | exitError (status : Nat)
  | startError (msg : String)
  | killed (msg : String)
deriving DecidableEq, Repr

/-- Go `err.Error()`: the text of the error, as interpolated by
`fmt.Sprintf("%s", err)`. -/
def GoError.message : GoError → String
  | .exitError n => "exit status " ++ toString n
  | .startError m => m
  | .killed m => m

/-- Outcome of `cmd.Run()` together with the contents of the two
`bytes.Buffer` sinks bound to the child's stdout and stderr. -/
structure RunResult where
  err : Option GoError
  stdout : String
  stderr : String
deriving DecidableEq, Repr

/-- A process-spawn request: program path, argument vector, and the
optional working-directory override (`cmd.Dir`). -/
structure SpawnRequest where
  prog : String
  args : List String
  dir : Option String
deriving DecidableEq, Repr

/-- The operating-system facilities the data source relies on:
`exec.LookPath` resolution against the executable search path, and
running a spawned process to completion. -/
structure OS where
  lookPath : String → Option String
  run : SpawnRequest → RunResult

/-- An attribute-scoped diagnostic, as produced by
`resp.Diagnostics.AddAttributeError(path, summary, detail)`. -/
structure Diagnostic where
  attrPath : String
  summary : String
  detail : String
deriving DecidableEq, Repr

/-- The framework read response: the state (unset until
`resp.State.Set` runs) and the accumulated diagnostics. -/
structure ReadResponse where
  state : Option testDataSourceModel
  diagnostics : List Diagnostic
deriving DecidableEq, Repr

/-- Result of one call of `Read`: a normal return carrying the
response, or a Go runtime panic. -/
inductive ReadResult where
  | ok (resp : ReadResponse)
  | panicked (msg : String)
deriving DecidableEq, Repr

/-- An apostrophe character, as it occurs in the Go format strings. -/
def squote : String := String.singleton (Char.ofNat 39)

/-- Detail text of the "Missing Command" diagnostic. -/
def missingCommandDetail : String :=
  "The command cannot be empty. Please specify a valid shell command."

/-- Detail text of the "Command Not Found" diagnostic:
`fmt.Sprintf("The command '%s' was not found. Ensure it's installed and accessible.", command)`. -/
def notFoundDetail (command : String) : String :=
  "The command " ++ squote ++ command ++ squote ++ " was not found. Ensure it" ++
    squote ++ "s installed and accessible."

/-- Detail text of the "Command Execution Failed" diagnostic:
`fmt.Sprintf("Command execution failed.\n\nCommand: %s\nError: %s\nStderr: %s", command, err, errorStr)`. -/
def execFailedDetail (command errText errorStr : String) : String :=
  "Command execution failed.\n\nCommand: " ++ command ++ "\nError: " ++ errText ++
    "\nStderr: " ++ errorStr

/-- `cmd.Dir` as set by `if workingDir != "" { cmd.Dir = workingDir }`:
no override when `workingDir` is empty. -/
def dirOf (workingDir : String) : Option String :=
  if workingDir = "" then none else some workingDir

/-- The spawn request issued by `exec.CommandContext(ctx, "/bin/sh", "-c", command)`
with the working-directory override of the given config. -/
def spawnOf (config : testDataSourceModel) : SpawnRequest :=
  ⟨"/bin/sh", ["-c", valueString config.command], dirOf (valueString config.working_dir)⟩

/-- Shallow embedding of `testDataSource.Read` (after the successful
decode of the request config into `config`).  Mirrors the Go source
line by line:
* reject `command == ""` with the "Missing Command" diagnostic;
* `exec.LookPath(strings.Fields(command)[0])` — indexing an empty
  slice panics, otherwise a resolution failure yields the
  "Command Not Found" diagnostic;
* run `/bin/sh -c command` with the optional `Dir` override;
* a non-nil `cmd.Run()` error yields the "Command Execution Failed"
  diagnostic; otherwise the config with computed `output`, `error`,
  `id` is stored as the state.
The second component is the list of spawn requests issued. -/
def Read (os : OS) (config : testDataSourceModel) :
    ReadResult × List SpawnRequest :=
  let command := valueString config.command
  let workingDir := valueString config.working_dir
  if command = "" then
    (.ok ⟨none, [⟨"command", "Missing Command", missingCommandDetail⟩]⟩, [])
  else
    match stringsFields command with
    | [] => (.panicked "runtime error: index out of range [0] with length 0", [])
    | tok :: _ =>
      match os.lookPath tok with
      | none =>
          (.ok ⟨none, [⟨"command", "Command Not Found", notFoundDetail command⟩]⟩, [])
      | some _ =>
          let spawn : SpawnRequest := ⟨"/bin/sh", ["-c", command], dirOf workingDir⟩
          let rr := os.run spawn
          match rr.err with
          | some e =>
              (.ok ⟨none, [⟨"command", "Command Execution Failed",
                execFailedDetail command e.message rr.stderr⟩]⟩, [spawn])
          | none =>
              (.ok ⟨some { config with
                  output := some rr.stdout,
                  error := some rr.stderr,
                  id := some "-" }, []⟩, [spawn])

/-! ### Concrete operating-system environments used as test inputs -/

/-- An environment on which no executable resolves; its run oracle is
never consulted by the claims that use it. -/
def trivialOS : OS := ⟨fun _ => none, fun _ => ⟨none, "", ""⟩⟩

/-- An environment where `echo` resolves and `/bin/sh -c "echo hello"`
(no working-directory override) exits 0 printing `hello\n`. -/
def echoOS : OS :=
  ⟨fun tok => if tok = "echo" then some "/bin/echo" else none,
   fun req => if req = ⟨"/bin/sh", ["-c", "echo hello"], none⟩ then ⟨none, "hello\n", ""⟩
              else ⟨some (.startError "unexpected"), "", ""⟩⟩

/-- An environment where `sleep` resolves and the context is cancelled
while the child sleeps: `cmd.Run` returns the kill error. -/
def sleepOS : OS :=
  ⟨fun tok => if tok = "sleep" then some "/usr/bin/sleep" else none,
   fun _ => ⟨some (.killed "signal: killed"), "", ""⟩⟩

/-- An environment where `false` resolves and the child exits with
status 1, writing nothing on either stream. -/
def falseOS : OS :=
  ⟨fun tok => if tok = "false" then some "/usr/bin/false" else none,
   fun _ => ⟨some (.exitError 1), "", ""⟩⟩

/-- An environment whose command exits 0 while writing non-empty text
to stderr. -/
def warnOS : OS :=
  ⟨fun tok => if tok = "mycmd" then some "/usr/local/bin/mycmd" else none,
   fun _ => ⟨none, "ok\n", "warning: deprecated\n"⟩⟩

/-- An environment where `pwd` resolves and runs successfully under the
working-directory override `/tmp`. -/
def wdOS : OS :=
  ⟨fun tok => if tok = "pwd" then some "/bin/pwd" else none,
   fun req => if req = ⟨"/bin/sh", ["-c", "pwd"], some "/tmp"⟩ then ⟨none, "/tmp\n", ""⟩
              else ⟨some (.startError "unexpected"), "", ""⟩⟩

/-- Erase the `working_dir` attribute of a successfully persisted
state, leaving every other observable of the response untouched. -/
def scrubWorkingDir : ReadResult × List SpawnRequest → ReadResult × List SpawnRequest
  | (.ok ⟨some m, ds⟩, sp) => (.ok ⟨some { m with working_dir := none }, ds⟩, sp)
  | r => r

/-! ### Shared lemmas -/

/-- The success path of `Read`: non-empty command, a resolvable first
token and a nil `cmd.Run` error store the config with computed
`output`, `error` and `id` attributes and record the single spawn. -/
theorem Read_success_eq (os : OS) (cfg : testDataSourceModel)
    (tok p : String) (ts : List String)
    (hne : valueString cfg.command ≠ "")
    (hf : stringsFields (valueString cfg.command) = tok :: ts)
    (hl : os.lookPath tok = some p)
    (hr : (os.run (spawnOf cfg)).err = none) :
    Read os cfg =
      (.ok ⟨some { cfg with
          output := some (os.run (spawnOf cfg)).stdout,
          error := some (os.run (spawnOf cfg)).stderr,
          id := some "-" }, []⟩,
       [spawnOf cfg]) := by
  simp only [spawnOf] at hr
  simp only [Read, spawnOf, hf, hl, hr, if_neg hne]

/-- The empty-command path of `Read`. -/
theorem Read_empty_eq (os : OS) (cfg : testDataSourceModel)
    (h : valueString cfg.command = "") :
    Read os cfg =
      (.ok ⟨none, [⟨"command", "Missing Command", missingCommandDetail⟩]⟩, []) := by
  simp only [Read, if_pos h]

/-- The whitespace-only path of `Read`: a non-empty command with no
fields panics on `strings.Fields(command)[0]`. -/
theorem Read_whitespace_eq (os : OS) (cfg : testDataSourceModel)
    (hne : valueString cfg.command ≠ "")
    (hf : stringsFields (valueString cfg.command) = []) :
    Read os cfg =
      (.panicked "runtime error: index out of range [0] with length 0", []) := by
  simp only [Read, if_neg hne, hf]

/-- The resolution-failure path of `Read`. -/
theorem Read_notFound_eq (os : OS) (cfg : testDataSourceModel)
    (tok : String) (ts : List String)
    (hne : valueString cfg.command ≠ "")
    (hf : stringsFields (valueString cfg.command) = tok :: ts)
    (hl : os.lookPath tok = none) :
    Read os cfg =
      (.ok ⟨none, [⟨"command", "Command Not Found",
        notFoundDetail (valueString cfg.command)⟩]⟩, []) := by
  simp only [Read, if_neg hne, hf, hl]

/-- The run-failure path of `Read`: any non-nil `cmd.Run` error yields
the "Command Execution Failed" diagnostic. -/
theorem Read_failure_eq (os : OS) (cfg : testDataSourceModel)
    (tok p : String) (ts : List String) (e : GoError)
    (hne : valueString cfg.command ≠ "")
    (hf : stringsFields (valueString cfg.command) = tok :: ts)
    (hl : os.lookPath tok = some p)
    (hr : (os.run (spawnOf cfg)).err = some e) :
    Read os cfg =
      (.ok ⟨none, [⟨"command", "Command Execution Failed",
        execFailedDetail (valueString cfg.command) e.message
          (os.run (spawnOf cfg)).stderr⟩]⟩,
       [spawnOf cfg]) := by
  simp only [spawnOf] at hr
  simp only [Read, spawnOf, hf, hl, hr, if_neg hne]

/-! ### Claims -/

/-- C1: the empty command is rejected with the "Missing Command"
diagnostic before any resolution or spawn, as the claim states; but a
whitespace-only command such as `" "` is NOT rejected that way — it
passes the `command == ""` check and `strings.Fields(command)[0]`
panics with an index-out-of-range runtime error (still before any
resolution attempt or spawn). -/
theorem C1_whitespace_command_panics :
    Read trivialOS ⟨some "", none, none, none, none⟩ =
      (.ok ⟨none, [⟨"command", "Missing Command", missingCommandDetail⟩]⟩, []) ∧
    Read trivialOS ⟨some " ", none, none, none, none⟩ =
      (.panicked "runtime error: index out of range [0] with length 0", []) := by
  constructor <;> decide

/-- Counterexample to C2: when cancellation kills the child of
`sleep 10`, the call fails with the generic "Command Execution Failed"
diagnostic — the very same error category produced by an ordinary
non-zero exit (`false`) — so there is no distinct cancellation error
category. -/
theorem C2_cancellation_counterexample :
    (Read sleepOS ⟨some "sleep 10", none, none, none, none⟩).1 =
      .ok ⟨none, [⟨"command", "Command Execution Failed",
        execFailedDetail "sleep 10" "signal: killed" ""⟩]⟩ ∧
    (Read falseOS ⟨some "false", none, none, none, none⟩).1 =
      .ok ⟨none, [⟨"command", "Command Execution Failed",
        execFailedDetail "false" "exit status 1" ""⟩]⟩ := by
  constructor <;> decide

/-- C2 (amended): if the cancellation signal fires before the child
exits (so `cmd.Run` returns the kill error), `Execute` never returns a
successful result — but the failure is reported through the generic
"Command Execution Failed" diagnostic, not a distinct cancellation
error category. -/
theorem C2_cancellation_fails_generically (os : OS) (cfg : testDataSourceModel)
    (tok p m : String) (ts : List String)
    (hne : valueString cfg.command ≠ "")
    (hf : stringsFields (valueString cfg.command) = tok :: ts)
    (hl : os.lookPath tok = some p)
    (hr : (os.run (spawnOf cfg)).err = some (.killed m)) :
    Read os cfg =
      (.ok ⟨none, [⟨"command", "Command Execution Failed",
        execFailedDetail (valueString cfg.command) m (os.run (spawnOf cfg)).stderr⟩]⟩,
       [spawnOf cfg]) := by
  simp only [spawnOf] at hr
  simp only [Read, spawnOf, hf, hl, hr, if_neg hne, GoError.message]

/-- Witness for C2 (amended): cancellation of `sleep 10` on a concrete
environment. -/
theorem C2_cancellation_fails_generically_witness :
    Read sleepOS ⟨some "sleep 10", none, none, none, none⟩ =
      (.ok ⟨none, [⟨"command", "Command Execution Failed",
        execFailedDetail "sleep 10" "signal: killed" ""⟩]⟩,
       [⟨"/bin/sh", ["-c", "sleep 10"], none⟩]) := by
  rw [C2_cancellation_fails_generically sleepOS ⟨some "sleep 10", none, none, none, none⟩
    "sleep" "/usr/bin/sleep" "signal: killed" ["10"] (by decide) (by decide) (by decide) rfl]
  decide

/-- C3: for every non-empty command whose first token resolves and
whose child exits with status zero, `Read` stores a fully populated
result: the captured stdout, the captured stderr, and the identifier
`-`. -/
theorem C3_success_result (os : OS) (cfg : testDataSourceModel)
    (tok p : String) (ts : List String)
    (hne : valueString cfg.command ≠ "")
    (hf : stringsFields (valueString cfg.command) = tok :: ts)
    (hl : os.lookPath tok = some p)
    (hr : (os.run (spawnOf cfg)).err = none) :
    Read os cfg =
      (.ok ⟨some { cfg with
          output := some (os.run (spawnOf cfg)).stdout,
          error := some (os.run (spawnOf cfg)).stderr,
          id := some "-" }, []⟩,
       [spawnOf cfg]) :=
  Read_success_eq os cfg tok p ts hne hf hl hr

/-- Witness for C3: the concrete scenario `command = "echo hello"`,
`working_dir` unset, yields output `hello\n`, error `""`, id `-`. -/
theorem C3_success_result_witness :
    Read echoOS ⟨some "echo hello", none, none, none, none⟩ =
      (.ok ⟨some ⟨some "echo hello", none, some "hello\n", some "", some "-"⟩, []⟩,
       [⟨"/bin/sh", ["-c", "echo hello"], none⟩]) := by
  rw [C3_success_result echoOS ⟨some "echo hello", none, none, none, none⟩
    "echo" "/bin/echo" ["hello"] (by decide) (by decide) (by decide) (by decide)]
  decide

/-- C4: every non-nil `cmd.Run` error — non-zero exit as well as
spawn-level failure (e.g. an invalid working directory) — produces the
"Command Execution Failed" diagnostic, whose detail contains the
original command text, the underlying error text and the full captured
stderr; no result is stored. -/
theorem C4_execution_failed (os : OS) (cfg : testDataSourceModel)
    (tok p : String) (ts : List String) (e : GoError)
    (hne : valueString cfg.command ≠ "")
    (hf : stringsFields (valueString cfg.command) = tok :: ts)
    (hl : os.lookPath tok = some p)
    (hr : (os.run (spawnOf cfg)).err = some e) :
    (Read os cfg).1 =
      .ok ⟨none, [⟨"command", "Command Execution Failed",
        execFailedDetail (valueString cfg.command) e.message (os.run (spawnOf cfg)).stderr⟩]⟩ ∧
    (∃ a b, execFailedDetail (valueString cfg.command) e.message (os.run (spawnOf cfg)).stderr =
      a ++ valueString cfg.command ++ b) ∧
    (∃ a b, execFailedDetail (valueString cfg.command) e.message (os.run (spawnOf cfg)).stderr =
      a ++ e.message ++ b) ∧
    (∃ a b, execFailedDetail (valueString cfg.command) e.message (os.run (spawnOf cfg)).stderr =
      a ++ (os.run (spawnOf cfg)).stderr ++ b) := by
  refine ⟨?_, ?_, ?_, ?_⟩
  · simp only [spawnOf] at hr
    simp only [Read, spawnOf, hf, hl, hr, if_neg hne]
  · exact ⟨"Command execution failed.\n\nCommand: ",
      "\nError: " ++ e.message ++ "\nStderr: " ++ (os.run (spawnOf cfg)).stderr,
      by simp [execFailedDetail, String.append_assoc]⟩
  · exact ⟨"Command execution failed.\n\nCommand: " ++ valueString cfg.command ++ "\nError: ",
      "\nStderr: " ++ (os.run (spawnOf cfg)).stderr,
      by simp [execFailedDetail, String.append_assoc]⟩
  · exact ⟨"Command execution failed.\n\nCommand: " ++ valueString cfg.command ++ "\nError: " ++
      e.message ++ "\nStderr: ", "",
      by simp [execFailedDetail, String.append_assoc]⟩

/-- Witness for C4: the concrete scenario `command = "false"` — a
non-zero exit with empty stderr fails with the "Command Execution
Failed" diagnostic. -/
theorem C4_execution_failed_witness :
    (Read falseOS ⟨some "false", none, none, none, none⟩).1 =
      .ok ⟨none, [⟨"command", "Command Execution Failed",
        execFailedDetail "false" "exit status 1" ""⟩]⟩ ∧
    (∃ a b, execFailedDetail "false" "exit status 1" "" = a ++ "false" ++ b) := by
  have h := C4_execution_failed falseOS ⟨some "false", none, none, none, none⟩
    "false" "/usr/bin/false" [] (.exitError 1) (by decide) (by decide) (by decide) rfl
  exact ⟨h.1, h.2.1⟩

/-- C5: a non-empty command whose first whitespace-delimited token does
not resolve on the search path fails with the "Command Not Found"
diagnostic carrying the original command string, and no process is
spawned. -/
theorem C5_executable_not_found (os : OS) (cfg : testDataSourceModel)
    (tok : String) (ts : List String)
    (hne : valueString cfg.command ≠ "")
    (hf : stringsFields (valueString cfg.command) = tok :: ts)
    (hl : os.lookPath tok = none) :
    Read os cfg =
      (.ok ⟨none, [⟨"command", "Command Not Found",
        notFoundDetail (valueString cfg.command)⟩]⟩, []) ∧
    ∃ a b, notFoundDetail (valueString cfg.command) = a ++ valueString cfg.command ++ b := by
  refine ⟨?_, "The command " ++ squote,
    squote ++ " was not found. Ensure it" ++ squote ++ "s installed and accessible.",
    by simp [notFoundDetail, String.append_assoc]⟩
  simp only [Read, hf, hl, if_neg hne]

/-- Witness for C5: the concrete scenario
`command = "nonexistent-binary-xyz"` on an environment resolving
nothing. -/
theorem C5_executable_not_found_witness :
    Read trivialOS ⟨some "nonexistent-binary-xyz", none, none, none, none⟩ =
      (.ok ⟨none, [⟨"command", "Command Not Found",
        notFoundDetail "nonexistent-binary-xyz"⟩]⟩, []) :=
  (C5_executable_not_found trivialOS ⟨some "nonexistent-binary-xyz", none, none, none, none⟩
    "nonexistent-binary-xyz" [] (by decide) (by decide) rfl).1

/-- C6: every invocation is atomic — either the state is a fully
populated model (output, error and identifier all set) with no
diagnostics, or the state is left entirely unset and exactly one
diagnostic is reported, or the call panics; no partial result is ever
visible. -/
theorem C6_atomic_outcome (os : OS) (cfg : testDataSourceModel) :
    (∃ m, (Read os cfg).1 = .ok ⟨some m, []⟩ ∧
      m.output.isSome ∧ m.error.isSome ∧ m.id = some "-") ∨
    (∃ d, (Read os cfg).1 = .ok ⟨none, [d]⟩) ∨
    (∃ msg, (Read os cfg).1 = .panicked msg) := by
  simp only [Read]
  split
  · exact Or.inr (Or.inl ⟨_, rfl⟩)
  · split
    · exact Or.inr (Or.inr ⟨_, rfl⟩)
    · split
      · exact Or.inr (Or.inl ⟨_, rfl⟩)
      · split
        · exact Or.inr (Or.inl ⟨_, rfl⟩)
        · exact Or.inl ⟨_, rfl, rfl, rfl, rfl⟩

/-- C7: whenever validation and resolution both pass, exactly one
process is spawned, and it is the shell interpreter `/bin/sh` invoked
with `-c` and the entire original command string verbatim as its single
argument, with the optional working-directory override — the adapter
never tokenizes the command for execution. -/
theorem C7_shell_verbatim (os : OS) (cfg : testDataSourceModel)
    (tok p : String) (ts : List String)
    (hne : valueString cfg.command ≠ "")
    (hf : stringsFields (valueString cfg.command) = tok :: ts)
    (hl : os.lookPath tok = some p) :
    (Read os cfg).2 =
      [⟨"/bin/sh", ["-c", valueString cfg.command],
        dirOf (valueString cfg.working_dir)⟩] := by
  simp only [Read, hf, hl, if_neg hne]
  cases (os.run ⟨"/bin/sh", ["-c", valueString cfg.command],
    dirOf (valueString cfg.working_dir)⟩).err <;> rfl

/-- Witness for C7: the spawn issued for `echo hello`. -/
theorem C7_shell_verbatim_witness :
    (Read echoOS ⟨some "echo hello", none, none, none, none⟩).2 =
      [⟨"/bin/sh", ["-c", "echo hello"], none⟩] := by
  rw [C7_shell_verbatim echoOS ⟨some "echo hello", none, none, none, none⟩
    "echo" "/bin/echo" ["hello"] (by decide) (by decide) (by decide)]
  decide

/-- Counterexample to C8: the two requests `working_dir = ""` and
`working_dir` absent are NOT observationally indistinguishable — on a
successful `echo hello` run the persisted states differ, because the
state echoes back the supplied `working_dir` attribute (empty string
versus null). -/
theorem C8_counterexample :
    Read echoOS ⟨some "echo hello", some "", none, none, none⟩ ≠
      Read echoOS ⟨some "echo hello", none, none, none, none⟩ := by
  decide

/-- C8 (amended): a `working_dir` supplied as the empty string behaves
exactly like an absent `working_dir` in everything except the echoed
`working_dir` attribute of the persisted state: the same processes are
spawned (no directory override, so the child inherits the caller's
working directory), the same diagnostics are produced, and the
computed output, error and id attributes agree. -/
theorem C8_empty_working_dir (os : OS) (cfg : testDataSourceModel) :
    scrubWorkingDir (Read os { cfg with working_dir := some "" }) =
      scrubWorkingDir (Read os { cfg with working_dir := none }) := by
  by_cases h : valueString cfg.command = ""
  · rw [Read_empty_eq os { cfg with working_dir := some "" } h,
      Read_empty_eq os { cfg with working_dir := none } h]
  · rcases hf : stringsFields (valueString cfg.command) with _ | ⟨tok, ts⟩
    · rw [Read_whitespace_eq os { cfg with working_dir := some "" } h hf,
        Read_whitespace_eq os { cfg with working_dir := none } h hf]
    · rcases hl : os.lookPath tok with _ | p
      · rw [Read_notFound_eq os { cfg with working_dir := some "" } tok ts h hf hl,
          Read_notFound_eq os { cfg with working_dir := none } tok ts h hf hl]
      · rcases hr : (os.run (spawnOf { cfg with working_dir := some "" })).err with _ | e
        · rw [Read_success_eq os { cfg with working_dir := some "" } tok p ts h hf hl hr,
            Read_success_eq os { cfg with working_dir := none } tok p ts h hf hl hr]
          rfl
        · rw [Read_failure_eq os { cfg with working_dir := some "" } tok p ts e h hf hl hr,
            Read_failure_eq os { cfg with working_dir := none } tok p ts e h hf hl hr]
          rfl

/-- C9: classification never depends on stderr content — a command
that exits 0 (nil `cmd.Run` error) while writing non-empty text to
stderr still stores a successful result, with that stderr text in the
`error` attribute and the captured stdout in `output`. -/
theorem C9_stderr_does_not_fail (os : OS) (cfg : testDataSourceModel)
    (tok p : String) (ts : List String)
    (hne : valueString cfg.command ≠ "")
    (hf : stringsFields (valueString cfg.command) = tok :: ts)
    (hl : os.lookPath tok = some p)
    (hr : (os.run (spawnOf cfg)).err = none)
    (hs : (os.run (spawnOf cfg)).stderr ≠ "") :
    ∃ m, (Read os cfg).1 = .ok ⟨some m, []⟩ ∧
      m.error = some (os.run (spawnOf cfg)).stderr ∧
      m.output = some (os.run (spawnOf cfg)).stdout := by
  refine ⟨{ cfg with
      output := some (os.run (spawnOf cfg)).stdout,
      error := some (os.run (spawnOf cfg)).stderr,
      id := some "-" }, ?_, rfl, rfl⟩
  rw [Read_success_eq os cfg tok p ts hne hf hl hr]

/-- Witness for C9: a command writing `warning: deprecated\n` to
stderr while exiting 0 still succeeds. -/
theorem C9_stderr_does_not_fail_witness :
    ∃ m, (Read warnOS ⟨some "mycmd", none, none, none, none⟩).1 = .ok ⟨some m, []⟩ ∧
      m.error = some "warning: deprecated\n" ∧
      m.output = some "ok\n" :=
  C9_stderr_does_not_fail warnOS ⟨some "mycmd", none, none, none, none⟩
    "mycmd" "/usr/local/bin/mycmd" [] (by decide) (by decide) rfl rfl (by decide)

/-- C10: on success the persisted state preserves the request's
`command` and `working_dir` attributes exactly as supplied; only
`output`, `error` and `id` are computed and changed. -/
theorem C10_frame_preservation (os : OS) (cfg : testDataSourceModel)
    (tok p : String) (ts : List String)
    (hne : valueString cfg.command ≠ "")
    (hf : stringsFields (valueString cfg.command) = tok :: ts)
    (hl : os.lookPath tok = some p)
    (hr : (os.run (spawnOf cfg)).err = none) :
    ∃ m, (Read os cfg).1 = .ok ⟨some m, []⟩ ∧
      m.command = cfg.command ∧
      m.working_dir = cfg.working_dir ∧
      m.output = some (os.run (spawnOf cfg)).stdout ∧
      m.error = some (os.run (spawnOf cfg)).stderr ∧
      m.id = some "-" := by
  refine ⟨{ cfg with
      output := some (os.run (spawnOf cfg)).stdout,
      error := some (os.run (spawnOf cfg)).stderr,
      id := some "-" }, ?_, rfl, rfl, rfl, rfl, rfl⟩
  rw [Read_success_eq os cfg tok p ts hne hf hl hr]

/-- Witness for C10: `pwd` run with `working_dir = "/tmp"` persists
the supplied command and working directory unchanged. -/
theorem C10_frame_preservation_witness :
    ∃ m, (Read wdOS ⟨some "pwd", some "/tmp", none, none, none⟩).1 = .ok ⟨some m, []⟩ ∧
      m.command = some "pwd" ∧
      m.working_dir = some "/tmp" ∧
      m.output = some "/tmp\n" ∧
      m.error = some "" ∧
      m.id = some "-" :=
  C10_frame_preservation wdOS ⟨some "pwd", some "/tmp", none, none, none⟩
    "pwd" "/bin/pwd" [] (by decide) (by decide) (by decide) (by decide)

end TFTest
